import Mathlib

/-
Shallow embedding of the gamemode host-configuration toggler.

The development models the registry tweak provider (services/registry.rs),
the hardware tweak provider (services/advanced_modules.rs), the service
control provider (services/windows.rs), the process lifecycle provider
(services/process.rs), the network isolation provider (services/network.rs),
the session orchestrator (services/gamemode.rs), the workload detector
(services/detector.rs) and the session monitor tick (main.rs).

Registry state is a map from (subkey path, value name) to an optional DWORD.
OS side effects that the orchestrator issues (service start/stop, process
suspend/resume, kills, network writes) are recorded as an explicit call
trace; fallible OS calls are driven by oracle fields of a world record.
-/

namespace GameMode

/-- A registry store: (subkey path, value name) to optional DWORD.
The hive (HKLM / HKCU) is folded into the path string. -/
abbrev RegStore := (String × String) → Option Nat

/-- Read a DWORD value; absent or unreadable values are none
(mirrors RegistryService::read_dword). -/
def readDword (reg : RegStore) (k : String × String) : Option Nat := reg k

/-- Set a DWORD value, creating the key if needed
(mirrors RegistryService::set_dword, which always results in the value
being present on success; failure swallowing is not modelled since the
round-trip claims are about the values the writes produce). -/
def setDword (reg : RegStore) (k : String × String) (v : Nat) : RegStore :=
  fun k2 => if k2 = k then some v else reg k2

/-- Key touched by apply_tweaks step 1. -/
def kWin32PrioritySeparation : String × String :=
  ("HKLM\\SYSTEM\\CurrentControlSet\\Control\\PriorityControl", "Win32PrioritySeparation")

/-- Key touched by apply_tweaks step 2 (captured). -/
def kAutoGameModeEnabled : String × String :=
  ("HKCU\\Software\\Microsoft\\GameBar", "AutoGameModeEnabled")

/-- Key touched by apply_tweaks step 2 (written without capture). -/
def kAllowAutoGameMode : String × String :=
  ("HKCU\\Software\\Microsoft\\GameBar", "AllowAutoGameMode")

/-- Key touched by apply_tweaks step 3. -/
def kPriority : String × String :=
  ("HKLM\\SOFTWARE\\Microsoft\\Windows NT\\CurrentVersion\\Multimedia\\SystemProfile\\Tasks\\Games", "Priority")

/-- Key touched by apply_tweaks step 3. -/
def kGpuPriority : String × String :=
  ("HKLM\\SOFTWARE\\Microsoft\\Windows NT\\CurrentVersion\\Multimedia\\SystemProfile\\Tasks\\Games", "GPU Priority")

/-- Key touched by disable_auto_restart_shell / enable_auto_restart_shell. -/
def kAutoRestartShell : String × String :=
  ("HKLM\\SOFTWARE\\Microsoft\\Windows NT\\CurrentVersion\\Winlogon", "AutoRestartShell")

/-- Key touched by unlock_power_settings (written without capture). -/
def kPowerAttributes : String × String :=
  ("HKLM\\SYSTEM\\CurrentControlSet\\Control\\Power\\PowerSettings\\54533251-82be-4824-96c1-47b60b740d00\\be337238-0d82-4146-a960-4f3749d470c7", "Attributes")

/-- Key touched by AdvancedModulesService::enable_hags / restore_hags. -/
def kHwSchMode : String × String :=
  ("HKLM\\SYSTEM\\CurrentControlSet\\Control\\GraphicsDrivers", "HwSchMode")

/-- Original-value slots of RegistryService (registry.rs lines 12-19). -/
structure RegistryService where
  original_win32_priority_separation : Option Nat
  original_auto_game_mode_enabled : Option Nat
  original_priority : Option Nat
  original_gpu_priority : Option Nat
  original_auto_restart_shell : Option Nat
  deriving DecidableEq, Repr

/-- RegistryService::new: all slots start empty. -/
def RegistryService.new : RegistryService :=
  { original_win32_priority_separation := none
    original_auto_game_mode_enabled := none
    original_priority := none
    original_gpu_priority := none
    original_auto_restart_shell := none }

/-- RegistryService::apply_tweaks: capture three originals, then write
Win32PrioritySeparation=38, AutoGameModeEnabled=1, AllowAutoGameMode=1,
Priority=6, GPU Priority=8, in source order. -/
def applyTweaks (svc : RegistryService) (reg : RegStore) :
    RegistryService × RegStore :=
  let o1 := readDword reg kWin32PrioritySeparation
  let reg := setDword reg kWin32PrioritySeparation 38
  let o2 := readDword reg kAutoGameModeEnabled
  let reg := setDword reg kAutoGameModeEnabled 1
  let reg := setDword reg kAllowAutoGameMode 1
  let o3 := readDword reg kPriority
  let o4 := readDword reg kGpuPriority
  let reg := setDword reg kPriority 6
  let reg := setDword reg kGpuPriority 8
  ({ svc with
      original_win32_priority_separation := o1
      original_auto_game_mode_enabled := o2
      original_priority := o3
      original_gpu_priority := o4 }, reg)

/-- RegistryService::unlock_power_settings: unconditional write of
Attributes=2, with no capture and no matching revert anywhere. -/
def unlockPowerSettings (reg : RegStore) : RegStore :=
  setDword reg kPowerAttributes 2

/-- One `if let Some(original)` block of revert_tweaks: write the captured
original back, or do nothing when the slot is empty. -/
def restoreCaptured (o : Option Nat) (k : String × String)
    (reg : RegStore) : RegStore :=
  match o with
  | some original => setDword reg k original
  | none => reg

/-- RegistryService::revert_tweaks: each captured original is written back
only when the capture slot holds a value; an empty slot is skipped, so the
applied value is left in place. AllowAutoGameMode is never restored. -/
def revertTweaks (svc : RegistryService) (reg : RegStore) : RegStore :=
  restoreCaptured svc.original_gpu_priority kGpuPriority
    (restoreCaptured svc.original_priority kPriority
      (restoreCaptured svc.original_auto_game_mode_enabled
        kAutoGameModeEnabled
        (restoreCaptured svc.original_win32_priority_separation
          kWin32PrioritySeparation reg)))

/-- RegistryService::disable_auto_restart_shell: capture the original,
then write 0. -/
def disableAutoRestartShell (svc : RegistryService) (reg : RegStore) :
    RegistryService × RegStore :=
  let original := readDword reg kAutoRestartShell
  ({ svc with original_auto_restart_shell := original },
   setDword reg kAutoRestartShell 0)

/-- RegistryService::enable_auto_restart_shell: write back the captured
original, defaulting to 1 when nothing was captured (unwrap_or(1)). -/
def enableAutoRestartShell (svc : RegistryService) (reg : RegStore) :
    RegStore :=
  setDword reg kAutoRestartShell (svc.original_auto_restart_shell.getD 1)

/-- GameModeOptions (options.rs): the four session booleans. -/
structure GameModeOptions where
  suspend_explorer : Bool
  suspend_browsers : Bool
  suspend_launchers : Bool
  isolate_network : Bool
  deriving DecidableEq, Repr

/-- The registry-service portion of GameModeService::enable_game_mode
(gamemode.rs lines 86-99): unlock_power_settings, apply_tweaks, then
disable_auto_restart_shell when suspend_explorer is set. -/
def registryEnable (opts : GameModeOptions) (svc : RegistryService)
    (reg : RegStore) : RegistryService × RegStore :=
  let reg := unlockPowerSettings reg
  let (svc, reg) := applyTweaks svc reg
  if opts.suspend_explorer then disableAutoRestartShell svc reg
  else (svc, reg)

/-- The registry-service portion of GameModeService::disable_game_mode
(gamemode.rs lines 226-227): revert_tweaks then enable_auto_restart_shell,
both unconditional. -/
def registryDisable (svc : RegistryService) (reg : RegStore) : RegStore :=
  enableAutoRestartShell svc (revertTweaks svc reg)

/-- Registry store after enable(opts) immediately followed by
disable(opts), starting from a freshly constructed RegistryService. -/
def registryRoundtrip (opts : GameModeOptions) (reg : RegStore) : RegStore :=
  let (svc, reg) := registryEnable opts RegistryService.new reg
  registryDisable svc reg

/-- AdvancedModulesService::enable_hags: capture the original HwSchMode
value (none when absent), then write 2. -/
def enableHags (reg : RegStore) : Option Nat × RegStore :=
  (readDword reg kHwSchMode, setDword reg kHwSchMode 2)

/-- AdvancedModulesService::restore_hags: write back the captured value
when one exists; when nothing was captured, do nothing at all. -/
def restoreHags (originalHagsValue : Option Nat) (reg : RegStore) :
    RegStore :=
  match originalHagsValue with
  | some val => setDword reg kHwSchMode val
  | none => reg

/-- Registry store after enable_hags immediately followed by restore_hags,
starting from an empty capture slot (AdvancedModulesService::new). -/
def hagsRoundtrip (reg : RegStore) : RegStore :=
  let (original, reg) := enableHags reg
  restoreHags original reg

/-- One entry of a Toolhelp process snapshot: pid and executable name
with the .exe suffix already stripped (extract_process_name). -/
structure ProcEntry where
  pid : Nat
  name : String
  deriving DecidableEq, Repr

/-- Lowercase an ASCII character, leaving everything else unchanged. -/
def asciiLower (c : Char) : Char :=
  if c.toNat ≥ 65 ∧ c.toNat ≤ 90 then Char.ofNat (c.toNat + 32) else c

/-- Rust str::eq_ignore_ascii_case. -/
def eqIgnoreAsciiCase (a b : String) : Bool :=
  a.data.map asciiLower == b.data.map asciiLower

/-- One observable OS side effect of the orchestrator. -/
inductive Call where
  | startService (name : String)
  | stopService (name : String)
  | suspendProcess (pid : Nat)
  | resumeProcess (pid : Nat)
  | setPriorityNormal (pid : Nat)
  | killProcess (name : String)
  | spawnExplorer
  | deleteMulticastPolicy
  | writeMulticastPolicy (v : Nat)
  | setNetbios (iface : String) (v : Nat)
  deriving DecidableEq, Repr

/-- Oracle for the fallible OS calls the providers issue. serviceStatus
returns the queried dwCurrentState, or none when opening the service
control manager, the service, or the status query fails. -/
structure SystemWorld where
  snapshot : List ProcEntry
  serviceStatus : String → Option Nat
  stopCallSucceeds : String → Bool
  openProcessSucceeds : Nat → Bool
  suspendCallSucceeds : Nat → Bool
  netbiosInterfaces : List String

/-- SERVICE_RUNNING for dwCurrentState. -/
def SERVICE_RUNNING : Nat := 4

/-- SERVICE_STOPPED for dwCurrentState. -/
def SERVICE_STOPPED : Nat := 1

/-- WindowsServiceManager::OPTIMIZATION_SERVICES, the fixed catalog. -/
def OPTIMIZATION_SERVICES : List String :=
  ["SysMain", "DiagTrack", "WSearch", "Spooler", "MapsBroker", "Fax",
   "NvContainerLocalSystem", "NvContainerNetworkService",
   "NVDisplay.ContainerLocalSystem",
   "CrossDeviceService", "wuauserv", "bits", "dosvc"]

/-- WindowsServiceManager::stop_single_service: query the status; only a
running service receives a stop control, and the name counts as stopped
only when that control call succeeds. -/
def stopSingleService (w : SystemWorld) (name : String) :
    Bool × List Call :=
  match w.serviceStatus name with
  | none => (false, [])
  | some st =>
      if st = SERVICE_RUNNING then
        (w.stopCallSucceeds name, [Call.stopService name])
      else (false, [])

/-- WindowsServiceManager::stop_optimization_services: one worker per
catalog name; a name joins the result exactly when its stop succeeded.
The parallel collection is modelled in catalog order. -/
def stopOptimizationServices (w : SystemWorld) : List String × List Call :=
  (OPTIMIZATION_SERVICES.filter (fun n => (stopSingleService w n).1),
   OPTIMIZATION_SERVICES.flatMap (fun n => (stopSingleService w n).2))

/-- WindowsServiceManager::start_single_service: query the status and
issue a start only when dwCurrentState is SERVICE_STOPPED. -/
def startSingleService (w : SystemWorld) (name : String) : List Call :=
  match w.serviceStatus name with
  | none => []
  | some st =>
      if st = SERVICE_STOPPED then [Call.startService name] else []

/-- WindowsServiceManager::restore_services: one worker per given name,
each running start_single_service; nothing outside the list is touched. -/
def restoreServices (w : SystemWorld) (serviceNames : List String) :
    List Call :=
  serviceNames.flatMap (startSingleService w)

/-- Loop body of ProcessService::suspend_processes over the snapshot:
a matching entry whose OpenProcess succeeds gets an NtSuspendProcess call
and its pid is appended; the NTSTATUS of the suspend call is discarded. -/
def suspendProcessesAux (openOk : Nat → Bool) (targetNames : List String) :
    List ProcEntry → List Nat × List Call
  | [] => ([], [])
  | e :: rest =>
      let r := suspendProcessesAux openOk targetNames rest
      if targetNames.any (fun t => eqIgnoreAsciiCase t e.name) then
        if openOk e.pid then
          (e.pid :: r.1, Call.suspendProcess e.pid :: r.2)
        else r
      else r

/-- ProcessService::suspend_processes: single snapshot pass, returning
the recorded pids and the issued calls. -/
def suspendProcesses (w : SystemWorld) (targetNames : List String) :
    List Nat × List Call :=
  suspendProcessesAux w.openProcessSucceeds targetNames w.snapshot

/-- ProcessService::resume_processes: single snapshot pass, resuming by
name every entry that matches and can be opened. -/
def resumeProcesses (w : SystemWorld) (targetNames : List String) :
    List Call :=
  w.snapshot.flatMap (fun e =>
    if targetNames.any (fun t => eqIgnoreAsciiCase t e.name) then
      if w.openProcessSucceeds e.pid then [Call.resumeProcess e.pid]
      else []
    else [])

/-- ProcessService::resume_processes_by_pid: resume each given pid that
can be opened. -/
def resumeProcessesByPid (w : SystemWorld) (pids : List Nat) : List Call :=
  pids.flatMap (fun pid =>
    if w.openProcessSucceeds pid then [Call.resumeProcess pid] else [])

/-- ProcessService::kill_processes: one batched taskkill over the names,
fired twice for reliability; an empty list issues nothing. -/
def killProcesses (targetNames : List String) : List Call :=
  if targetNames.isEmpty then []
  else targetNames.map Call.killProcess ++ targetNames.map Call.killProcess

/-- ProcessService::kill_process: a single name, fired twice. -/
def killProcess (name : String) : List Call :=
  [Call.killProcess name, Call.killProcess name]

/-- ProcessService::restart_explorer: scan the snapshot for explorer and
spawn a new instance only when none is found. -/
def restartExplorer (w : SystemWorld) : List Call :=
  if w.snapshot.any (fun e => eqIgnoreAsciiCase e.name "explorer") then []
  else [Call.spawnExplorer]

/-- AdvancedModulesService::restore_process_priority: set exactly the
recorded demoted pids back to normal priority. -/
def restoreProcessPriority (w : SystemWorld) (demoted : List Nat) :
    List Call :=
  demoted.flatMap (fun pid =>
    if w.openProcessSucceeds pid then [Call.setPriorityNormal pid] else [])

/-- NetworkService::toggle_isolation: enabling writes EnableMulticast=0
and NetbiosOptions=2 on every enumerated interface; disabling deletes the
multicast policy value and writes NetbiosOptions=0 on every interface.
Swallowed open failures of the policy keys are not modelled: the calls
shown are the ones the function attempts. -/
def toggleIsolation (w : SystemWorld) (enable : Bool) : List Call :=
  if enable then
    Call.writeMulticastPolicy 0 ::
      w.netbiosInterfaces.map (fun i => Call.setNetbios i 2)
  else
    Call.deleteMulticastPolicy ::
      w.netbiosInterfaces.map (fun i => Call.setNetbios i 0)

/-- Session-scoped mutable state of GameModeService (gamemode.rs 19-27). -/
structure GameModeState where
  suspended_shell_ux_pids : List Nat
  stopped_services : List String
  network_isolated : Bool
  deriving DecidableEq, Repr

/-- GameModeService::new: empty collections, isolation flag down. -/
def GameModeState.new : GameModeState :=
  { suspended_shell_ux_pids := []
    stopped_services := []
    network_isolated := false }

/-- Process lists of gamemode.rs (static, 1:1 with the source). -/
def BROWSERS : List String :=
  ["chrome", "firefox", "msedge", "brave", "opera", "vivaldi", "thorium"]

/-- Launchers killed when suspend_launchers is set. -/
def LAUNCHERS : List String :=
  ["epicgameslauncher", "battle.net", "origin", "gog galaxy"]

/-- Shell UX processes that get suspended (and later resumed). -/
def SHELL_UX : List String :=
  ["SearchHost", "SearchApp", "TextInputHost", "LockApp",
   "MoNotificationUx", "ShellExperienceHost", "StartMenuExperienceHost"]

/-- Start menu replacement shells killed with explorer. -/
def START_MENU_REPLACEMENTS : List String :=
  ["StartAllBackX64", "StartAllBack", "OpenShellMenu", "ClassicStartMenu"]

/-- Fixed bloatware kill list. -/
def BLOATWARE : List String :=
  ["smartscreen", "Microsoft.Windows.SmartScreen", "Cortana",
   "PhoneExperienceHost", "CrossDeviceResume", "CrossDeviceService",
   "Widgets", "WidgetService", "Mousocoreworker", "Microsoft.Media.Player",
   "OneDrive", "Dropbox", "GoogleDriveFS",
   "Teams", "Skype", "GameBar", "GameBarPresenceWriter", "YourPhone",
   "nvcontainer", "NVDisplay.Container", "NVIDIA Share",
   "NVIDIA Web Helper", "NVIDIA Overlay"]

/-- Fixed peripheral software kill list. -/
def PERIPHERALS : List String :=
  ["iCue", "lghub_agent", "Razer Synapse Service", "ArmouryCrate.Service",
   "Razer Central", "Razer Synapse 3", "LGHUB", "Lghub_updater"]

/-- GameModeService::enable_game_mode, restricted to its session state
updates and its service / process / network call trace. Registry and
power effects are modelled separately (registryEnable); the trace lists
the concurrent groups in program text order, which no claim depends on. -/
def enableGameMode (w : SystemWorld) (st : GameModeState)
    (opts : GameModeOptions) : GameModeState × List Call :=
  let explorerCalls :=
    if opts.suspend_explorer then
      killProcesses START_MENU_REPLACEMENTS ++ killProcess "explorer"
    else []
  let stoppedPair := stopOptimizationServices w
  let netCalls :=
    if opts.isolate_network then toggleIsolation w true else []
  let shellPair := suspendProcesses w SHELL_UX
  let killList :=
    START_MENU_REPLACEMENTS
      ++ (if opts.suspend_browsers then BROWSERS else [])
      ++ BLOATWARE ++ PERIPHERALS
      ++ (if opts.suspend_launchers then LAUNCHERS else [])
  let killCalls := killProcesses killList
  ({ suspended_shell_ux_pids := shellPair.1
     stopped_services := st.stopped_services ++ stoppedPair.1
     network_isolated :=
       if opts.isolate_network then true else st.network_isolated },
   explorerCalls ++ stoppedPair.2 ++ netCalls ++ shellPair.2 ++ killCalls)

/-- GameModeService::disable_game_mode, restricted to its session state
updates and its service / process / network call trace: restart explorer
when suspend_explorer is set, restore exactly the recorded services,
resume the recorded pids then best-effort resume the shell UX list by
name, and revert isolation only when the session flag was set; finally
the session state is cleared. -/
def disableGameMode (w : SystemWorld) (st : GameModeState)
    (opts : GameModeOptions) : GameModeState × List Call :=
  let explorerCalls :=
    if opts.suspend_explorer then restartExplorer w else []
  let svcCalls := restoreServices w st.stopped_services
  let resumeCalls :=
    resumeProcessesByPid w st.suspended_shell_ux_pids
      ++ resumeProcesses w SHELL_UX
  let netCalls :=
    if st.network_isolated then toggleIsolation w false else []
  (GameModeState.new, explorerCalls ++ svcCalls ++ resumeCalls ++ netCalls)

/-- Call trace of disable_game_mode. -/
def disableTrace (w : SystemWorld) (st : GameModeState)
    (opts : GameModeOptions) : List Call :=
  (disableGameMode w st opts).2

/-- Fixed known workload list of the detector (detector.rs KNOWN_GAMES). -/
def KNOWN_GAMES : List String :=
  ["cod", "cod24-cod", "FortniteClient-Win64-Shipping", "r5apex", "cs2",
   "valheim", "dota2", "League of Legends", "Overwatch",
   "Valorant-Win64-Shipping",
   "GTA5", "RDR2", "Cyberpunk2077", "Minecraft.Windows"]

/-- Fixed exclusion list of the detector (detector.rs
EXCLUDED_PROCESSES). -/
def EXCLUDED_PROCESSES : List String :=
  ["explorer", "SearchApp", "LockApp", "SearchHost"]

/-- Membership of the known workload list, matched case-insensitively
with the list entry on the left, as in the source. -/
def isKnownGame (name : String) : Bool :=
  KNOWN_GAMES.any (fun g => eqIgnoreAsciiCase g name)

/-- Membership of the exclusion list, matched case-insensitively. -/
def isExcludedProcess (name : String) : Bool :=
  EXCLUDED_PROCESSES.any (fun e => eqIgnoreAsciiCase e name)

/-- Window rectangle as reported by GetWindowRect. -/
structure Rect where
  left : Int
  top : Int
  right : Int
  bottom : Int
  deriving DecidableEq, Repr

/-- World the detector scans: own pid, primary screen metrics, the process
snapshot, the first visible top-level window owned by a pid (none when
window enumeration finds none), and the window bounds query (none when
GetWindowRect fails). Window handles are names (Nat). -/
structure DetectorWorld where
  currentPid : Nat
  screenW : Int
  screenH : Int
  snapshot : List ProcEntry
  mainWindow : Nat → Option Nat
  windowRect : Nat → Option Rect

/-- Loop of GameDetector::detect_fullscreen_game over the snapshot: skip
self and excluded names; for a process with a visible window, return it
when its name is a known game, otherwise return it when the window bounds
are at least the screen bounds; the first hit breaks the loop. -/
def detectAux (w : DetectorWorld) : List ProcEntry → Option (Nat × Nat)
  | [] => none
  | e :: rest =>
      if e.pid = w.currentPid then detectAux w rest
      else if isExcludedProcess e.name then detectAux w rest
      else
        match w.mainWindow e.pid with
        | some hwnd =>
            if isKnownGame e.name then some (e.pid, hwnd)
            else
              match w.windowRect hwnd with
              | some rect =>
                  let width := rect.right - rect.left
                  let height := rect.bottom - rect.top
                  if width ≥ w.screenW ∧ height ≥ w.screenH then
                    some (e.pid, hwnd)
                  else detectAux w rest
              | none => detectAux w rest
        | none => detectAux w rest

/-- GameDetector::detect_fullscreen_game. -/
def detectFullscreenGame (w : DetectorWorld) : Option (Nat × Nat) :=
  detectAux w w.snapshot

/-- Modelled from the spec detector steps 1-4: a process is accepted when
it is not the caller, not excluded, owns a visible window, and either its
name is on the known workload list or that window's bounds are at least
the screen's width and height (inclusive). -/
def acceptsProcess (w : DetectorWorld) (e : ProcEntry) : Bool :=
  !(e.pid = w.currentPid) && !(isExcludedProcess e.name) &&
    match w.mainWindow e.pid with
    | some hwnd =>
        isKnownGame e.name ||
          match w.windowRect hwnd with
          | some rect =>
              decide (rect.right - rect.left ≥ w.screenW ∧
                rect.bottom - rect.top ≥ w.screenH)
          | none => false
    | none => false

/-- Modelled from the spec detector step 5: the first process in snapshot
order satisfying the acceptance predicate wins, paired with its visible
window; a single pass, no two-pass preference for known games. -/
def detectorFirstMatch (w : DetectorWorld) : Option (Nat × Nat) :=
  (w.snapshot.find? (acceptsProcess w)).bind
    (fun e => (w.mainWindow e.pid).map (fun hwnd => (e.pid, hwnd)))

/-- Fields of the persisted settings that the monitor thread and the
toggle handler read when building GameModeOptions (settings.rs
AppSettings, restricted to those fields). -/
structure AppSettings where
  suspend_explorer : Bool
  suspend_browsers : Bool
  suspend_launchers : Bool
  isolate_network : Bool
  deriving DecidableEq, Repr

/-- Options construction in the monitor thread (main.rs lines 145-157):
the four booleans are read from the shared mutable settings at disable
time. -/
def optionsOfSettings (s : AppSettings) : GameModeOptions :=
  { suspend_explorer := s.suspend_explorer
    suspend_browsers := s.suspend_browsers
    suspend_launchers := s.suspend_launchers
    isolate_network := s.isolate_network }

/-- Shared atomics of the monitor thread: the watched pid, the monitoring
flag and the game-mode-active flag. -/
structure MonitorShared where
  monitoring : Bool
  pid : Nat
  active : Bool
  deriving DecidableEq, Repr

/-- Adaptive sleep of the monitor loop: 2 seconds while watching, 5 while
idle. -/
def monitorSleepSecs (monitoring : Bool) : Nat :=
  if monitoring then 2 else 5

/-- One tick of the game process monitor loop (main.rs lines 125-182):
when watching a pid that no longer exists, clear the monitoring flag and
the pid, clear the active flag, and invoke the disable path with options
built from the current shared settings. The returned option is the
GameModeOptions value passed to disable_game_mode, none when disable is
not invoked this tick. -/
def monitorTick (running : Nat → Bool) (settings : AppSettings)
    (sh : MonitorShared) : MonitorShared × Option GameModeOptions :=
  if !sh.monitoring then (sh, none)
  else if sh.pid = 0 then (sh, none)
  else if running sh.pid then (sh, none)
  else ({ monitoring := false, pid := 0, active := false },
    some (optionsOfSettings settings))

/-- Pointwise view of setDword, used to evaluate stores key by key. -/
theorem setDword_apply (reg : RegStore) (k : String × String) (v : Nat)
    (k2 : String × String) :
    setDword reg k v k2 = if k2 = k then some v else reg k2 := rfl

/-- Reading the restored key gives the captured value when one exists. -/
theorem restoreCaptured_apply_same (o : Option Nat) (k : String × String)
    (reg : RegStore) :
    restoreCaptured o k reg k = (match o with
      | some original => some original
      | none => reg k) := by
  cases o <;> simp [restoreCaptured, setDword]

/-- Restoring one key leaves every other key unchanged. -/
theorem restoreCaptured_apply_other (o : Option Nat) (k : String × String)
    (reg : RegStore) (k2 : String × String) (h : k2 ≠ k) :
    restoreCaptured o k reg k2 = reg k2 := by
  cases o <;> simp [restoreCaptured, setDword, h]

/-- C1 (corrected). Round trip of the registry tweaks: a captured value
that was present before enable is restored exactly; a value that was
absent before enable is left at the applied value (38 / 1 / 6 / 8), not
made absent again; AllowAutoGameMode and the power Attributes value are
written without capture and never reverted, so they end at 1 and 2; and
AutoRestartShell ends at its prior value only when suspend_explorer was
set and a prior value existed, otherwise at the default 1. -/
theorem registry_roundtrip_restores_captured_only
    (opts : GameModeOptions) (reg0 : RegStore) :
    (∀ v, reg0 kWin32PrioritySeparation = some v →
      registryRoundtrip opts reg0 kWin32PrioritySeparation = some v) ∧
    (reg0 kWin32PrioritySeparation = none →
      registryRoundtrip opts reg0 kWin32PrioritySeparation = some 38) ∧
    (∀ v, reg0 kAutoGameModeEnabled = some v →
      registryRoundtrip opts reg0 kAutoGameModeEnabled = some v) ∧
    (reg0 kAutoGameModeEnabled = none →
      registryRoundtrip opts reg0 kAutoGameModeEnabled = some 1) ∧
    (∀ v, reg0 kPriority = some v →
      registryRoundtrip opts reg0 kPriority = some v) ∧
    (reg0 kPriority = none →
      registryRoundtrip opts reg0 kPriority = some 6) ∧
    (∀ v, reg0 kGpuPriority = some v →
      registryRoundtrip opts reg0 kGpuPriority = some v) ∧
    (reg0 kGpuPriority = none →
      registryRoundtrip opts reg0 kGpuPriority = some 8) ∧
    (registryRoundtrip opts reg0 kAllowAutoGameMode = some 1) ∧
    (registryRoundtrip opts reg0 kPowerAttributes = some 2) ∧
    (opts.suspend_explorer = true → ∀ v, reg0 kAutoRestartShell = some v →
      registryRoundtrip opts reg0 kAutoRestartShell = some v) ∧
    (opts.suspend_explorer = true → reg0 kAutoRestartShell = none →
      registryRoundtrip opts reg0 kAutoRestartShell = some 1) ∧
    (opts.suspend_explorer = false →
      registryRoundtrip opts reg0 kAutoRestartShell = some 1) := by
  rcases opts with ⟨se, sb, sl, iso⟩
  cases se <;>
    refine ⟨?_, ?_, ?_, ?_, ?_, ?_, ?_, ?_, ?_, ?_, ?_, ?_, ?_⟩ <;>
      (intros
       simp_all +decide [registryRoundtrip, registryEnable,
         registryDisable, applyTweaks, revertTweaks, unlockPowerSettings,
         disableAutoRestartShell, enableAutoRestartShell, readDword,
         RegistryService.new, restoreCaptured_apply_same,
         restoreCaptured_apply_other, setDword_apply])

/-- Witness for C1: on the everywhere-absent store with all options off,
the theorem yields Win32PrioritySeparation = 38 after the round trip. -/
theorem registry_roundtrip_restores_captured_only_witness :
    registryRoundtrip ⟨false, false, false, false⟩ (fun _ => none)
      kWin32PrioritySeparation = some 38 :=
  (registry_roundtrip_restores_captured_only ⟨false, false, false, false⟩
    (fun _ => none)).2.1 rfl

/-- Counterexample for C1 as stated: starting from a store where every
value is absent, enable immediately followed by disable leaves
Win32PrioritySeparation set to the applied value 38 and AutoRestartShell
set to the default 1, though both were absent before enable. -/
theorem registry_roundtrip_claim_false :
    (fun _ => none : RegStore) kWin32PrioritySeparation = none ∧
    registryRoundtrip ⟨false, false, false, false⟩ (fun _ => none)
      kWin32PrioritySeparation = some 38 ∧
    (fun _ => none : RegStore) kAutoRestartShell = none ∧
    registryRoundtrip ⟨false, false, false, false⟩ (fun _ => none)
      kAutoRestartShell = some 1 := by
  refine ⟨rfl, ?_, rfl, ?_⟩ <;> rfl

/-- C2 (corrected). GPU scheduling tweak round trip: when HwSchMode was
absent at enable time, restore_hags is a strict no-op on the store (no
fallback is written), so the value applied by enable_hags, namely 2, is
still present after the round trip, rather than the value being absent
again; when a prior value existed it is restored exactly. -/
theorem hags_restore_strict_noop (reg0 : RegStore) :
    (reg0 kHwSchMode = none →
      restoreHags (enableHags reg0).1 (enableHags reg0).2
        = (enableHags reg0).2 ∧
      hagsRoundtrip reg0 kHwSchMode = some 2) ∧
    (∀ v, reg0 kHwSchMode = some v →
      hagsRoundtrip reg0 kHwSchMode = some v) := by
  constructor
  · intro h
    refine ⟨?_, ?_⟩ <;>
      simp [enableHags, restoreHags, hagsRoundtrip, readDword, setDword, h]
  · intro v h
    simp [enableHags, restoreHags, hagsRoundtrip, readDword, setDword, h]

/-- Witness for C2: on the everywhere-absent store, restore is a no-op
and HwSchMode ends at 2. -/
theorem hags_restore_strict_noop_witness :
    restoreHags (enableHags (fun _ => none)).1 (enableHags (fun _ => none)).2
      = (enableHags (fun _ => none)).2 ∧
    hagsRoundtrip (fun _ => none) kHwSchMode = some 2 :=
  (hags_restore_strict_noop (fun _ => none)).1 rfl

/-- Counterexample for C2 as stated: with HwSchMode absent before enable,
it is present (with value 2) after the matching disable. -/
theorem hags_roundtrip_claim_false :
    (fun _ => none : RegStore) kHwSchMode = none ∧
    hagsRoundtrip (fun _ => none) kHwSchMode = some 2 :=
  ⟨rfl, rfl⟩

/-- Membership in start_single_service output: it emits exactly one start
call for its own service, and only when the queried state is stopped. -/
theorem mem_startSingleService (w : SystemWorld) (a : String) (c : Call) :
    c ∈ startSingleService w a ↔
      c = Call.startService a ∧ w.serviceStatus a = some SERVICE_STOPPED := by
  unfold startSingleService
  cases h : w.serviceStatus a with
  | none => simp
  | some st =>
      by_cases hst : st = SERVICE_STOPPED <;> simp [hst]

/-- Membership in restore_services output: every start call names a
member of the given list whose queried state is stopped. -/
theorem mem_restoreServices (w : SystemWorld) (names : List String)
    (c : Call) :
    c ∈ restoreServices w names ↔
      ∃ n ∈ names, c = Call.startService n ∧
        w.serviceStatus n = some SERVICE_STOPPED := by
  simp [restoreServices, List.mem_flatMap, mem_startSingleService]

/-- Membership in resume_processes output: every call resumes a snapshot
entry that matches one of the target names and could be opened. -/
theorem mem_resumeProcesses (w : SystemWorld) (targets : List String)
    (c : Call) :
    c ∈ resumeProcesses w targets ↔
      ∃ e ∈ w.snapshot, c = Call.resumeProcess e.pid ∧
        targets.any (fun t => eqIgnoreAsciiCase t e.name) = true ∧
        w.openProcessSucceeds e.pid = true := by
  simp only [resumeProcesses, List.mem_flatMap]
  constructor
  · rintro ⟨e, he, hc⟩
    by_cases h1 : targets.any (fun t => eqIgnoreAsciiCase t e.name) = true
    · rw [if_pos h1] at hc
      by_cases h2 : w.openProcessSucceeds e.pid = true
      · rw [if_pos h2] at hc
        simp at hc
        exact ⟨e, he, hc, h1, h2⟩
      · rw [if_neg h2] at hc
        simp at hc
    · rw [if_neg h1] at hc
      simp at hc
  · rintro ⟨e, he, rfl, h1, h2⟩
    exact ⟨e, he, by simp [h1, h2]⟩

/-- Membership in resume_processes_by_pid output: every call resumes one
of the given pids. -/
theorem mem_resumeProcessesByPid (w : SystemWorld) (pids : List Nat)
    (c : Call) :
    c ∈ resumeProcessesByPid w pids ↔
      ∃ p ∈ pids, c = Call.resumeProcess p ∧
        w.openProcessSucceeds p = true := by
  simp only [resumeProcessesByPid, List.mem_flatMap]
  constructor
  · rintro ⟨p, hp, hc⟩
    by_cases h1 : w.openProcessSucceeds p = true
    · rw [if_pos h1] at hc
      simp at hc
      exact ⟨p, hp, hc, h1⟩
    · rw [if_neg h1] at hc
      simp at hc
  · rintro ⟨p, hp, rfl, h1⟩
    exact ⟨p, hp, by simp [h1]⟩

/-- Membership in restore_process_priority output: every call targets one
of the recorded demoted pids. -/
theorem mem_restoreProcessPriority (w : SystemWorld) (demoted : List Nat)
    (c : Call) :
    c ∈ restoreProcessPriority w demoted ↔
      ∃ p ∈ demoted, c = Call.setPriorityNormal p ∧
        w.openProcessSucceeds p = true := by
  simp only [restoreProcessPriority, List.mem_flatMap]
  constructor
  · rintro ⟨p, hp, hc⟩
    by_cases h1 : w.openProcessSucceeds p = true
    · rw [if_pos h1] at hc
      simp at hc
      exact ⟨p, hp, hc, h1⟩
    · rw [if_neg h1] at hc
      simp at hc
  · rintro ⟨p, hp, rfl, h1⟩
    exact ⟨p, hp, by simp [h1]⟩

/-- Restart explorer issues at most a spawn call. -/
theorem mem_restartExplorer (w : SystemWorld) (c : Call) :
    c ∈ restartExplorer w → c = Call.spawnExplorer := by
  unfold restartExplorer
  by_cases h : w.snapshot.any (fun e => eqIgnoreAsciiCase e.name "explorer") = true <;>
    simp [h]

/-- The isolation revert issues only the policy delete and per-interface
NetBIOS default writes. -/
theorem mem_toggleIsolation_off (w : SystemWorld) (c : Call) :
    c ∈ toggleIsolation w false →
      c = Call.deleteMulticastPolicy ∨
        ∃ i ∈ w.netbiosInterfaces, c = Call.setNetbios i 0 := by
  simp only [toggleIsolation, if_neg Bool.false_ne_true, List.mem_cons,
    List.mem_map]
  rintro (rfl | ⟨i, hi, rfl⟩)
  · exact Or.inl rfl
  · exact Or.inr ⟨i, hi, rfl⟩

/-- Concrete world with one live shell UX process and nothing else. -/
def shellWorldA : SystemWorld :=
  { snapshot := [⟨123, "SearchHost"⟩]
    serviceStatus := fun _ => none
    stopCallSucceeds := fun _ => false
    openProcessSucceeds := fun _ => true
    suspendCallSucceeds := fun _ => true
    netbiosInterfaces := [] }

/-- Concrete world with one live shell UX process, for the blast radius
analysis. -/
def shellWorldB : SystemWorld :=
  { snapshot := [⟨77, "TextInputHost"⟩]
    serviceStatus := fun _ => none
    stopCallSucceeds := fun _ => false
    openProcessSucceeds := fun _ => true
    suspendCallSucceeds := fun _ => true
    netbiosInterfaces := [] }

/-- Concrete session state that recorded suspended pid 5 and nothing
else. -/
def sessionStateB : GameModeState :=
  { suspended_shell_ux_pids := [5]
    stopped_services := []
    network_isolated := false }

/-- Decomposition of the disable_game_mode trace into its four groups. -/
theorem mem_disableTrace (w : SystemWorld) (st : GameModeState)
    (opts : GameModeOptions) (c : Call) :
    c ∈ disableTrace w st opts ↔
      ((opts.suspend_explorer = true ∧ c ∈ restartExplorer w) ∨
        c ∈ restoreServices w st.stopped_services ∨
        c ∈ resumeProcessesByPid w st.suspended_shell_ux_pids ∨
        c ∈ resumeProcesses w SHELL_UX ∨
        (st.network_isolated = true ∧ c ∈ toggleIsolation w false)) := by
  unfold disableTrace disableGameMode
  cases hse : opts.suspend_explorer <;>
    cases hni : st.network_isolated <;>
      simp [hse, hni, List.mem_append, or_assoc]

/-- On freshly constructed state the trace reduces to an optional explorer
respawn plus the unconditional shell UX resume-by-name sweep. -/
theorem disableTrace_fresh (w : SystemWorld) (opts : GameModeOptions) :
    disableTrace w GameModeState.new opts =
      (if opts.suspend_explorer = true then restartExplorer w else [])
        ++ resumeProcesses w SHELL_UX := by
  unfold disableTrace disableGameMode GameModeState.new restoreServices
    resumeProcessesByPid
  simp

/-- C3 (corrected). Disabling on freshly constructed state issues zero
service start calls, zero service stop calls and zero resume calls for
the (empty) recorded pid list; but the unconditional best-effort
resume-by-name sweep over the shell UX list still runs, so a resume call
is issued for every live process whose name matches the shell UX list
(and only for such processes) — zero resume calls only when no such
process is alive. -/
theorem disable_fresh_state_calls (w : SystemWorld)
    (opts : GameModeOptions) :
    (∀ n, Call.startService n ∉ disableTrace w GameModeState.new opts) ∧
    (∀ n, Call.stopService n ∉ disableTrace w GameModeState.new opts) ∧
    (∀ p, Call.resumeProcess p ∈ disableTrace w GameModeState.new opts →
      ∃ e ∈ w.snapshot, e.pid = p ∧
        SHELL_UX.any (fun t => eqIgnoreAsciiCase t e.name) = true ∧
        w.openProcessSucceeds p = true) := by
  refine ⟨?_, ?_, ?_⟩
  · intro n hmem
    rw [disableTrace_fresh, List.mem_append] at hmem
    rcases hmem with hc | hc
    · rcases hse : opts.suspend_explorer <;> rw [hse] at hc
      · simp at hc
      · exact absurd (mem_restartExplorer w _ hc) (by simp)
    · rcases (mem_resumeProcesses w SHELL_UX _).mp hc with ⟨e, _, heq, _⟩
      exact absurd heq (by simp)
  · intro n hmem
    rw [disableTrace_fresh, List.mem_append] at hmem
    rcases hmem with hc | hc
    · rcases hse : opts.suspend_explorer <;> rw [hse] at hc
      · simp at hc
      · exact absurd (mem_restartExplorer w _ hc) (by simp)
    · rcases (mem_resumeProcesses w SHELL_UX _).mp hc with ⟨e, _, heq, _⟩
      exact absurd heq (by simp)
  · intro p hmem
    rw [disableTrace_fresh, List.mem_append] at hmem
    rcases hmem with hc | hc
    · rcases hse : opts.suspend_explorer <;> rw [hse] at hc
      · simp at hc
      · exact absurd (mem_restartExplorer w _ hc) (by simp)
    · rcases (mem_resumeProcesses w SHELL_UX _).mp hc with
        ⟨e, he, heq, hmatch, hopen⟩
      have hpe : p = e.pid := by simpa using heq
      subst hpe
      exact ⟨e, he, rfl, hmatch, hopen⟩

/-- Witness for C3: in a world whose snapshot holds the live SearchHost
process 123, the fresh-state disable trace satisfies the trace
characterization, instantiated at the resume call it contains. -/
theorem disable_fresh_state_calls_witness :
    ∃ e ∈ shellWorldA.snapshot, e.pid = 123 ∧
      SHELL_UX.any (fun t => eqIgnoreAsciiCase t e.name) = true ∧
      shellWorldA.openProcessSucceeds 123 = true :=
  (disable_fresh_state_calls shellWorldA
    ⟨false, false, false, false⟩).2.2 123 (by decide)

/-- Counterexample for C3 as stated: on freshly constructed state (all
collections empty, flag down), disable still issues a process resume call
(for the live shell UX process 123), so the number of resume calls is not
zero. -/
theorem disable_fresh_state_claim_false :
    GameModeState.new.suspended_shell_ux_pids = [] ∧
    GameModeState.new.stopped_services = [] ∧
    GameModeState.new.network_isolated = false ∧
    disableTrace shellWorldA GameModeState.new
      ⟨false, false, false, false⟩ = [Call.resumeProcess 123] := by
  refine ⟨rfl, rfl, rfl, ?_⟩
  decide

/-- C4 (corrected). Blast radius of disable: every service start call
names a recorded stopped service whose queried state at restore time is
stopped (never a catalog service outside the recorded set), no stop calls
are issued, and every priority restore targets a recorded demoted pid;
but a resume call is not confined to the recorded pids: besides the
recorded pids, the unconditional shell UX resume-by-name sweep resumes
any live process matching the fixed shell UX name list. -/
theorem disable_minimal_blast_radius (w : SystemWorld)
    (st : GameModeState) (opts : GameModeOptions) (demoted : List Nat) :
    (∀ n, Call.startService n ∈ disableTrace w st opts →
      n ∈ st.stopped_services ∧
        w.serviceStatus n = some SERVICE_STOPPED) ∧
    (∀ n, Call.stopService n ∉ disableTrace w st opts) ∧
    (∀ p, Call.resumeProcess p ∈ disableTrace w st opts →
      p ∈ st.suspended_shell_ux_pids ∨
        ∃ e ∈ w.snapshot, e.pid = p ∧
          SHELL_UX.any (fun t => eqIgnoreAsciiCase t e.name) = true) ∧
    (∀ p, Call.setPriorityNormal p ∈ restoreProcessPriority w demoted →
      p ∈ demoted) := by
  refine ⟨?_, ?_, ?_, ?_⟩
  · intro n hmem
    rcases (mem_disableTrace w st opts _).mp hmem with
      ⟨_, hc⟩ | hc | hc | hc | ⟨_, hc⟩
    · exact absurd (mem_restartExplorer w _ hc) (by simp)
    · rcases (mem_restoreServices w _ _).mp hc with ⟨m, hm, heq, hstatus⟩
      have : n = m := by simpa using heq
      subst this
      exact ⟨hm, hstatus⟩
    · rcases (mem_resumeProcessesByPid w _ _).mp hc with ⟨q, _, heq, _⟩
      exact absurd heq (by simp)
    · rcases (mem_resumeProcesses w _ _).mp hc with ⟨e, _, heq, _⟩
      exact absurd heq (by simp)
    · rcases mem_toggleIsolation_off w _ hc with heq | ⟨i, _, heq⟩ <;>
        exact absurd heq (by simp)
  · intro n hmem
    rcases (mem_disableTrace w st opts _).mp hmem with
      ⟨_, hc⟩ | hc | hc | hc | ⟨_, hc⟩
    · exact absurd (mem_restartExplorer w _ hc) (by simp)
    · rcases (mem_restoreServices w _ _).mp hc with ⟨m, _, heq, _⟩
      exact absurd heq (by simp)
    · rcases (mem_resumeProcessesByPid w _ _).mp hc with ⟨q, _, heq, _⟩
      exact absurd heq (by simp)
    · rcases (mem_resumeProcesses w _ _).mp hc with ⟨e, _, heq, _⟩
      exact absurd heq (by simp)
    · rcases mem_toggleIsolation_off w _ hc with heq | ⟨i, _, heq⟩ <;>
        exact absurd heq (by simp)
  · intro p hmem
    rcases (mem_disableTrace w st opts _).mp hmem with
      ⟨_, hc⟩ | hc | hc | hc | ⟨_, hc⟩
    · exact absurd (mem_restartExplorer w _ hc) (by simp)
    · rcases (mem_restoreServices w _ _).mp hc with ⟨m, _, heq, _⟩
      exact absurd heq (by simp)
    · rcases (mem_resumeProcessesByPid w _ _).mp hc with
        ⟨q, hq, heq, _⟩
      have : p = q := by simpa using heq
      subst this
      exact Or.inl hq
    · rcases (mem_resumeProcesses w _ _).mp hc with
        ⟨e, he, heq, hmatch, _⟩
      have : p = e.pid := by simpa using heq
      subst this
      exact Or.inr ⟨e, he, rfl, hmatch⟩
    · rcases mem_toggleIsolation_off w _ hc with heq | ⟨i, _, heq⟩ <;>
        exact absurd heq (by simp)
  · intro p hmem
    rcases (mem_restoreProcessPriority w demoted _).mp hmem with
      ⟨q, hq, heq, _⟩
    have : p = q := by simpa using heq
    subst this
    exact hq

/-- Witness for C4: in world B with recorded state B, the start call
characterization is vacuously instantiable through the resume clause at
the recorded pid 5. -/
theorem disable_minimal_blast_radius_witness :
    5 ∈ sessionStateB.suspended_shell_ux_pids ∨
      ∃ e ∈ shellWorldB.snapshot, e.pid = 5 ∧
        SHELL_UX.any (fun t => eqIgnoreAsciiCase t e.name) = true :=
  (disable_minimal_blast_radius shellWorldB sessionStateB
    ⟨false, false, false, false⟩ []).2.2.1 5 (by decide)

/-- Counterexample for C4 as stated: with recorded pids exactly [5],
disable also resumes the live shell UX process 77, which is outside the
recorded pid set. -/
theorem disable_minimal_blast_claim_false :
    sessionStateB.suspended_shell_ux_pids = [5] ∧
    Call.resumeProcess 77 ∈
      disableTrace shellWorldB sessionStateB ⟨false, false, false, false⟩ ∧
    77 ∉ sessionStateB.suspended_shell_ux_pids := by
  refine ⟨rfl, ?_, ?_⟩ <;> decide

/-- C7 (confirmed). When isolate_network is false at enable time and the
session flag was down, the flag stays down after enable, and the
following disable issues neither the multicast policy delete nor any
NetBIOS interface write, whatever the live world looks like at disable
time. -/
theorem network_revert_gated_on_session_flag (w1 w2 : SystemWorld)
    (st0 : GameModeState) (opts : GameModeOptions)
    (hopt : opts.isolate_network = false)
    (hst : st0.network_isolated = false) :
    (enableGameMode w1 st0 opts).1.network_isolated = false ∧
    Call.deleteMulticastPolicy ∉
      disableTrace w2 (enableGameMode w1 st0 opts).1 opts ∧
    (∀ i v, Call.setNetbios i v ∉
      disableTrace w2 (enableGameMode w1 st0 opts).1 opts) := by
  have hflag : (enableGameMode w1 st0 opts).1.network_isolated = false := by
    simp [enableGameMode, hopt, hst]
  refine ⟨hflag, ?_, ?_⟩
  · intro hmem
    rcases (mem_disableTrace w2 _ opts _).mp hmem with
      ⟨_, hc⟩ | hc | hc | hc | ⟨hni, _⟩
    · exact absurd (mem_restartExplorer w2 _ hc) (by simp)
    · rcases (mem_restoreServices w2 _ _).mp hc with ⟨m, _, heq, _⟩
      exact absurd heq (by simp)
    · rcases (mem_resumeProcessesByPid w2 _ _).mp hc with ⟨q, _, heq, _⟩
      exact absurd heq (by simp)
    · rcases (mem_resumeProcesses w2 _ _).mp hc with ⟨e, _, heq, _⟩
      exact absurd heq (by simp)
    · exact absurd hni (by simp [hflag])
  · intro i v hmem
    rcases (mem_disableTrace w2 _ opts _).mp hmem with
      ⟨_, hc⟩ | hc | hc | hc | ⟨hni, _⟩
    · exact absurd (mem_restartExplorer w2 _ hc) (by simp)
    · rcases (mem_restoreServices w2 _ _).mp hc with ⟨m, _, heq, _⟩
      exact absurd heq (by simp)
    · rcases (mem_resumeProcessesByPid w2 _ _).mp hc with ⟨q, _, heq, _⟩
      exact absurd heq (by simp)
    · rcases (mem_resumeProcesses w2 _ _).mp hc with ⟨e, _, heq, _⟩
      exact absurd heq (by simp)
    · exact absurd hni (by simp [hflag])

/-- Witness for C7: concrete enable-then-disable in world A with all
options off issues no multicast policy delete. -/
theorem network_revert_gated_witness :
    Call.deleteMulticastPolicy ∉
      disableTrace shellWorldA
        (enableGameMode shellWorldA GameModeState.new
          ⟨false, false, false, false⟩).1
        ⟨false, false, false, false⟩ :=
  (network_revert_gated_on_session_flag shellWorldA shellWorldA
    GameModeState.new ⟨false, false, false, false⟩ rfl rfl).2.1

/-- The recorded pids of the suspend pass are exactly the pids of the
snapshot entries that match a target name and whose OpenProcess call
succeeds; the result of the suspend call itself plays no part. -/
theorem suspendProcessesAux_pids (openOk : Nat → Bool)
    (targets : List String) :
    ∀ l : List ProcEntry,
      (suspendProcessesAux openOk targets l).1 =
        (l.filter (fun e =>
          targets.any (fun t => eqIgnoreAsciiCase t e.name) &&
            openOk e.pid)).map (fun e => e.pid) := by
  intro l
  induction l with
  | nil => rfl
  | cons e rest ih =>
      by_cases h1 : targets.any (fun t => eqIgnoreAsciiCase t e.name) = true
      · by_cases h2 : openOk e.pid = true <;>
          simp [suspendProcessesAux, h1, h2, ih]
      · simp [suspendProcessesAux, h1, ih]

/-- Concrete world where the shell UX process 7 can be opened but its
suspend call reports failure. -/
def suspendWorldC : SystemWorld :=
  { snapshot := [⟨7, "SearchHost"⟩]
    serviceStatus := fun _ => none
    stopCallSucceeds := fun _ => false
    openProcessSucceeds := fun _ => true
    suspendCallSucceeds := fun _ => false
    netbiosInterfaces := [] }

/-- C8 (corrected). suspend_processes records exactly the pids of the
matching snapshot entries whose OpenProcess call succeeds; the NTSTATUS
of NtSuspendProcess itself is discarded, so the recorded list does not
depend on it at all, and a pid whose open succeeds but whose suspend call
fails is still recorded. -/
theorem suspend_records_exactly_openable_matches (w : SystemWorld)
    (targets : List String) :
    ((suspendProcesses w targets).1 =
      (w.snapshot.filter (fun e =>
        targets.any (fun t => eqIgnoreAsciiCase t e.name) &&
          w.openProcessSucceeds e.pid)).map (fun e => e.pid)) ∧
    (∀ f, suspendProcesses { w with suspendCallSucceeds := f } targets =
      suspendProcesses w targets) := by
  exact ⟨suspendProcessesAux_pids w.openProcessSucceeds targets w.snapshot,
    fun f => rfl⟩

/-- Counterexample for C8 as stated: pid 7 matches, its OpenProcess
succeeds, its suspend call fails, and it is recorded anyway (and its
suspend call is issued). -/
theorem suspend_records_claim_false :
    suspendWorldC.suspendCallSucceeds 7 = false ∧
    (suspendProcesses suspendWorldC SHELL_UX).1 = [7] ∧
    Call.suspendProcess 7 ∈ (suspendProcesses suspendWorldC SHELL_UX).2 := by
  refine ⟨rfl, ?_, ?_⟩ <;> decide

/-- Concrete world where every catalog service is running and every stop
succeeds. -/
def stopWorldC : SystemWorld :=
  { snapshot := []
    serviceStatus := fun _ => some SERVICE_RUNNING
    stopCallSucceeds := fun _ => true
    openProcessSucceeds := fun _ => false
    suspendCallSucceeds := fun _ => false
    netbiosInterfaces := [] }

/-- C10 (confirmed). Every name reported by stop_optimization_services is
a member of the fixed catalog, and no name appears more than once, so the
recorded stopped-service state is always a duplicate-free subset of the
catalog. -/
theorem stopped_services_subset_of_catalog (w : SystemWorld) :
    (∀ n ∈ (stopOptimizationServices w).1, n ∈ OPTIMIZATION_SERVICES) ∧
    (∀ n, ((stopOptimizationServices w).1).count n ≤ 1) := by
  constructor
  · intro n hn
    simp only [stopOptimizationServices] at hn
    exact List.mem_of_mem_filter hn
  · intro n
    have h1 : ((stopOptimizationServices w).1).count n ≤
        OPTIMIZATION_SERVICES.count n := by
      simp only [stopOptimizationServices]
      exact List.Sublist.count_le (List.filter_sublist _) n
    have h2 : OPTIMIZATION_SERVICES.count n ≤ 1 :=
      List.nodup_iff_count_le_one.mp (by decide) n
    exact le_trans h1 h2

/-- Witness for C10: with every catalog service running and stoppable,
SysMain is reported and the theorem places it in the catalog. -/
theorem stopped_services_subset_witness :
    "SysMain" ∈ OPTIMIZATION_SERVICES :=
  (stopped_services_subset_of_catalog stopWorldC).1 "SysMain" (by decide)

/-- The detector loop returns the first snapshot entry accepted by the
per-process predicate, paired with that entry's visible window. -/
theorem detectAux_eq_firstMatch (w : DetectorWorld) :
    ∀ l : List ProcEntry,
      detectAux w l = (l.find? (acceptsProcess w)).bind
        (fun e => (w.mainWindow e.pid).map (fun hwnd => (e.pid, hwnd))) := by
  intro l
  induction l with
  | nil => rfl
  | cons e rest ih =>
      by_cases h1 : e.pid = w.currentPid
      · have hacc : acceptsProcess w e = false := by
          simp [acceptsProcess, h1]
        simp [detectAux, h1, hacc, ih]
      · by_cases h2 : isExcludedProcess e.name = true
        · have hacc : acceptsProcess w e = false := by
            simp [acceptsProcess, h2]
          simp [detectAux, h1, h2, hacc, ih]
        · cases hw : w.mainWindow e.pid with
          | none =>
              have hacc : acceptsProcess w e = false := by
                simp [acceptsProcess, h1, h2, hw]
              simp [detectAux, h1, h2, hw, hacc, ih]
          | some hwnd =>
              by_cases h3 : isKnownGame e.name = true
              · have hacc : acceptsProcess w e = true := by
                  simp [acceptsProcess, h1, h2, hw, h3]
                simp [detectAux, h1, h2, hw, h3, hacc]
              · cases hr : w.windowRect hwnd with
                | none =>
                    have hacc : acceptsProcess w e = false := by
                      simp [acceptsProcess, h1, h2, hw, h3, hr]
                    simp [detectAux, h1, h2, hw, h3, hr, hacc, ih]
                | some rect =>
                    by_cases h4 : rect.right - rect.left ≥ w.screenW ∧
                        rect.bottom - rect.top ≥ w.screenH
                    · have hacc : acceptsProcess w e = true := by
                        simp [acceptsProcess, h1, h2, hw, h3, hr, h4]
                      simp [detectAux, h1, h2, hw, h3, hr, h4, hacc]
                    · have hacc : acceptsProcess w e = false := by
                        simp [acceptsProcess, h1, h2, hw, h3, hr, h4]
                      simp [detectAux, h1, h2, hw, h3, hr, h4, hacc, ih]

/-- Tie-break scenario world: excluded explorer first, then a non-game
chrome with a screen-sized window, then the known game cs2 with a small
window, on a 1920 by 1080 screen. -/
def tieWorld : DetectorWorld :=
  { currentPid := 999
    screenW := 1920
    screenH := 1080
    snapshot := [⟨500, "explorer"⟩, ⟨501, "chrome"⟩, ⟨502, "cs2"⟩]
    mainWindow := fun pid =>
      if pid = 501 then some 9001
      else if pid = 502 then some 9002
      else none
    windowRect := fun hwnd =>
      if hwnd = 9001 then some ⟨0, 0, 1920, 1080⟩
      else if hwnd = 9002 then some ⟨0, 0, 800, 600⟩
      else none }

/-- C5 (confirmed). The detector is a single pass returning the first
process in snapshot order that is not skipped and either is a known
workload with a visible window or owns a visible window whose bounds are
at least (inclusively) the screen bounds; in particular a fullscreen
non-game earlier in the snapshot wins over a known game later in the
snapshot: in the tie world, chrome (pid 501, not a known game) is
returned ahead of the known game cs2 (pid 502). -/
theorem detector_single_pass_first_match :
    (∀ w : DetectorWorld, detectFullscreenGame w = detectorFirstMatch w) ∧
    detectFullscreenGame tieWorld = some (501, 9001) ∧
    isKnownGame "chrome" = false ∧
    isKnownGame "cs2" = true := by
  refine ⟨?_, by decide, by decide, by decide⟩
  intro w
  exact detectAux_eq_firstMatch w w.snapshot

/-- Scenario world holding only the known game cs2 with a small 800 by
600 window on a 1920 by 1080 screen. -/
def smallKnownWorld : DetectorWorld :=
  { currentPid := 999
    screenW := 1920
    screenH := 1080
    snapshot := [⟨600, "cs2"⟩]
    mainWindow := fun pid => if pid = 600 then some 9600 else none
    windowRect := fun _ => some ⟨0, 0, 800, 600⟩ }

/-- C6 (confirmed). A non-skipped process whose name is on the known
workload list and that owns a visible window is returned immediately,
whatever the window bounds oracle says (the statement holds for every
windowRect, so the bounds are not consulted); a process with no visible
window is passed over, known name or not; and concretely the known game
with a small 800 by 600 window is returned. -/
theorem detector_known_game_priority :
    (∀ (w : DetectorWorld) (e : ProcEntry) (rest : List ProcEntry)
        (hwnd : Nat),
      w.snapshot = e :: rest → e.pid ≠ w.currentPid →
      isExcludedProcess e.name = false → w.mainWindow e.pid = some hwnd →
      isKnownGame e.name = true →
      detectFullscreenGame w = some (e.pid, hwnd)) ∧
    (∀ (w : DetectorWorld) (e : ProcEntry) (rest : List ProcEntry),
      w.snapshot = e :: rest → w.mainWindow e.pid = none →
      detectFullscreenGame w = detectAux w rest) ∧
    detectFullscreenGame smallKnownWorld = some (600, 9600) := by
  refine ⟨?_, ?_, by decide⟩
  · intro w e rest hwnd hsnap hpid hexc hw hknown
    unfold detectFullscreenGame
    rw [hsnap]
    simp [detectAux, hpid, hexc, hw, hknown]
  · intro w e rest hsnap hw
    unfold detectFullscreenGame
    rw [hsnap]
    by_cases h1 : e.pid = w.currentPid
    · simp [detectAux, h1]
    · by_cases h2 : isExcludedProcess e.name = true <;>
        simp [detectAux, h1, h2, hw]

/-- Witness for C6: applied to the small-window known-game world, the
first clause yields its detection result. -/
theorem detector_known_game_priority_witness :
    detectFullscreenGame smallKnownWorld = some (600, 9600) :=
  detector_known_game_priority.1 smallKnownWorld ⟨600, "cs2"⟩ [] 9600
    rfl (by decide) (by decide) rfl (by decide)

/-- Settings as they were when the session was enabled. -/
def settingsAtEnable : AppSettings :=
  { suspend_explorer := true
    suspend_browsers := true
    suspend_launchers := false
    isolate_network := false }

/-- Settings after the user edited them mid-session: browsers are no
longer suspended. -/
def settingsAtDisable : AppSettings :=
  { suspend_explorer := true
    suspend_browsers := false
    suspend_launchers := false
    isolate_network := false }

/-- C9 (corrected). When the watched pid is gone, the very tick (the
watching sleep is 2 seconds) clears the monitoring flag, the pid, and the
active flag, and invokes the disable path exactly once; but the options
passed to disable are rebuilt from the shared mutable settings as they
are at that moment, not from a capture made at enable time; a subsequent
tick on the cleared state is a no-op, so the active flag falls exactly
once. -/
theorem monitor_tick_disable_behavior (running : Nat → Bool)
    (s : AppSettings) (sh : MonitorShared)
    (h1 : sh.monitoring = true) (h2 : sh.pid ≠ 0)
    (h3 : running sh.pid = false) :
    monitorTick running s sh =
      ({ monitoring := false, pid := 0, active := false },
        some (optionsOfSettings s)) ∧
    monitorTick running s { monitoring := false, pid := 0, active := false }
      = ({ monitoring := false, pid := 0, active := false }, none) ∧
    monitorSleepSecs true = 2 := by
  refine ⟨?_, rfl, rfl⟩
  simp [monitorTick, h1, h2, h3]

/-- Witness for C9: a watching state on dead pid 42 with the edited
settings produces the cleared state and a disable invocation carrying the
current settings' options. -/
theorem monitor_tick_disable_behavior_witness :
    monitorTick (fun _ => false) settingsAtDisable
      { monitoring := true, pid := 42, active := true } =
      ({ monitoring := false, pid := 0, active := false },
        some (optionsOfSettings settingsAtDisable)) :=
  (monitor_tick_disable_behavior (fun _ => false) settingsAtDisable
    { monitoring := true, pid := 42, active := true }
    rfl (by decide) rfl).1

/-- Counterexample for C9 as stated: the options handed to the disable
path equal those built from the settings at disable time, which differ
from the options captured at enable time after a mid-session settings
edit. -/
theorem monitor_enable_options_claim_false :
    (monitorTick (fun _ => false) settingsAtDisable
      { monitoring := true, pid := 42, active := true }).2 =
      some (optionsOfSettings settingsAtDisable) ∧
    optionsOfSettings settingsAtDisable ≠ optionsOfSettings settingsAtEnable := by
  refine ⟨rfl, ?_⟩
  decide

end GameMode
